import Mathlib

/-!
# MixerInteractivityEditorModule

A shallow embedding of
`Source/MixerInteractivityEditor/Private/MixerInteractivityEditorModule.cpp`:
the refresh of the design-time name lists, the construction of the two HTTP
requests and their completion callbacks.

Conventions of the embedding

* `FName` and `FString` values are Lean strings.
* `TArray<T>` is a list; `Add` appends at the end, `Empty(Slack)` drops every
  element (the slack only reserves capacity, which is not modelled).
* `TSharedPtr<T>` that is known to hold a freshly allocated object is the
  object itself; a pointer that may be null is an `Option`.
* A range-based `for` loop over an array is a left fold over its elements.
* Calls that leave this file (listeners of a multicast delegate, the bound
  completion handler, the HTTP layer) are recorded in explicit logs.
* Engine and plugin functions declared in headers outside this file
  (`EHttpResponseCodes::IsOk`, `FJsonSerializer::Deserialize`,
  `FJsonValue::AsObject`, the two `FromJson` members, `ProcessRequest`) are
  parameters, collected in `Host`.
-/

namespace MixerInteractivityEditor

/-! ## Data model -/

/-- The engine name type. -/
abbrev FName := String

/-- The engine string type. -/
abbrev FString := String

/-- The engine dynamic array. -/
abbrev TArray (α : Type) := List α

/-- The member `TArray::Num`. -/
def TArray.Num {α : Type} (arr : TArray α) : Nat := arr.length

/-- The member `TArray::Empty(Slack)`: removes every element; `Slack` is a capacity hint. -/
def TArray.Empty {α : Type} (_arr : TArray α) (_Slack : Nat) : TArray α := []

/-- The member `TArray::Add`: appends one element at the end. -/
def TArray.Add {α : Type} (arr : TArray α) (Item : α) : TArray α := arr ++ [Item]

/-- The expression `MakeShareable(new T(Value))`: a shared pointer to a fresh copy of `Value`. -/
def MakeShareable {α : Type} (Value : α) : α := Value

/-- One entry of `UMixerInteractivitySettings::DesignTimeGroups`. Only `Name` is
read by this file; `InitialScene` stands for the rest of the record. -/
structure FMixerPredefinedGroup where
  Name : FName
  InitialScene : FName
  deriving DecidableEq, Repr

/-- The part of `UMixerInteractivitySettings` that `RefreshDesignTimeObjects` reads. -/
structure UMixerInteractivitySettings where
  CachedButtons : TArray FName
  CachedSticks : TArray FName
  CachedScenes : TArray FName
  DesignTimeGroups : TArray FMixerPredefinedGroup
  deriving DecidableEq, Repr

/-- What a listener of `OnDesignTimeObjectsChanged` can read through the four
getters of the module at the moment it is invoked. -/
structure FDesignTimeView where
  Buttons : TArray FName
  Sticks : TArray FName
  Scenes : TArray FName
  Groups : TArray FName
  deriving DecidableEq, Repr

/-- One invocation of one listener during a `Broadcast`. -/
structure FListenerCall where
  Listener : Nat
  Seen : FDesignTimeView
  deriving DecidableEq, Repr

/-- The module instance: its four lists, the listeners bound to the multicast
delegate `DesignTimeObjectsChanged` (by handle), and a log with one entry per
`Broadcast` call holding the listener invocations that call made. -/
structure FMixerInteractivityEditorModule where
  DesignTimeButtons : TArray FName
  DesignTimeSticks : TArray FName
  DesignTimeScenes : TArray FName
  DesignTimeGroups : TArray FName
  DesignTimeObjectsChanged : List Nat
  BroadcastLog : List (List FListenerCall)
  deriving DecidableEq, Repr

/-- The lists as the getters `GetDesignTimeButtons` .. `GetDesignTimeGroups` return them. -/
def FMixerInteractivityEditorModule.View (M : FMixerInteractivityEditorModule) : FDesignTimeView :=
  { Buttons := M.DesignTimeButtons
    Sticks := M.DesignTimeSticks
    Scenes := M.DesignTimeScenes
    Groups := M.DesignTimeGroups }

/-- The call `DesignTimeObjectsChanged.Broadcast()`: every bound listener is invoked, in
order, and sees the module as it is at that moment. -/
def Broadcast (M : FMixerInteractivityEditorModule) : FMixerInteractivityEditorModule :=
  { M with
    BroadcastLog :=
      M.BroadcastLog ++ [M.DesignTimeObjectsChanged.map (fun L => { Listener := L, Seen := M.View })] }

/-! ## RefreshDesignTimeObjects -/

/-- The function `FMixerInteractivityEditorModule::RefreshDesignTimeObjects`, statement by
statement; `Settings` is the object `GetDefault<UMixerInteractivitySettings>()`
returns. -/
def RefreshDesignTimeObjects (Settings : UMixerInteractivitySettings)
    (M : FMixerInteractivityEditorModule) : FMixerInteractivityEditorModule :=
  let M := { M with
    DesignTimeButtons := TArray.Empty M.DesignTimeButtons (TArray.Num Settings.CachedButtons) }
  let M := Settings.CachedButtons.foldl
    (fun (M : FMixerInteractivityEditorModule) (Name : FName) =>
      { M with DesignTimeButtons := TArray.Add M.DesignTimeButtons (MakeShareable Name) }) M
  let M := { M with
    DesignTimeSticks := TArray.Empty M.DesignTimeSticks (TArray.Num Settings.CachedSticks) }
  let M := Settings.CachedSticks.foldl
    (fun (M : FMixerInteractivityEditorModule) (Name : FName) =>
      { M with DesignTimeSticks := TArray.Add M.DesignTimeSticks (MakeShareable Name) }) M
  let M := { M with
    DesignTimeScenes := TArray.Empty M.DesignTimeScenes (TArray.Num Settings.CachedScenes) }
  let M := Settings.CachedScenes.foldl
    (fun (M : FMixerInteractivityEditorModule) (Name : FName) =>
      { M with DesignTimeScenes := TArray.Add M.DesignTimeScenes (MakeShareable Name) }) M
  let M := { M with
    DesignTimeGroups := TArray.Empty M.DesignTimeGroups (TArray.Num Settings.DesignTimeGroups + 1) }
  let M := { M with
    DesignTimeGroups := TArray.Add M.DesignTimeGroups (MakeShareable "default") }
  let M := Settings.DesignTimeGroups.foldl
    (fun (M : FMixerInteractivityEditorModule) (Group : FMixerPredefinedGroup) =>
      { M with DesignTimeGroups := TArray.Add M.DesignTimeGroups (MakeShareable Group.Name) }) M
  Broadcast M

/-- The four lists in the closed form used by `RefreshDesignTimeObjects_eq`: the
three cached name lists, and "default" followed by the names of the groups. -/
def RefreshedView (Settings : UMixerInteractivitySettings) : FDesignTimeView :=
  { Buttons := Settings.CachedButtons
    Sticks := Settings.CachedSticks
    Scenes := Settings.CachedScenes
    Groups := "default" :: Settings.DesignTimeGroups.map (fun G => G.Name) }

/-! ## HTTP layer and delegates -/

/-- What the callbacks read from an `IHttpResponse`. -/
structure FHttpResponse where
  ResponseCode : Int
  Content : FString
  deriving DecidableEq, Repr

/-- One invocation of a bound completion handler, with the two arguments it was given. -/
structure FHandlerCall (ρ : Type) where
  Handler : Nat
  Success : Bool
  Result : ρ
  deriving DecidableEq, Repr

/-- A single-cast delegate: unbound (`none`) or bound to the handler with the given handle. -/
abbrev FDelegate := Option Nat

/-- The call `Delegate.ExecuteIfBound(Success, Result)`: invokes the handler when one is
bound and does nothing otherwise. The value is the list of handler
invocations made. -/
def ExecuteIfBound {ρ : Type} (OnFinished : FDelegate) (Success : Bool) (Result : ρ) :
    List (FHandlerCall ρ) :=
  match OnFinished with
  | some Handler => [{ Handler := Handler, Success := Success, Result := Result }]
  | none => []

/-- An `IHttpRequest` as this file configures it. `ρ` is the result type of the
completion handler the bound lambda reports to. -/
structure FHttpRequest (ρ : Type) where
  Verb : FString
  URL : FString
  Headers : List (FString × FString)
  OnProcessRequestComplete : Option (Option FHttpResponse → Bool → List (FHandlerCall ρ))

/-- The call `FHttpModule::Get().CreateRequest()`: a request with nothing set. -/
def CreateRequest {ρ : Type} : FHttpRequest ρ :=
  { Verb := "", URL := "", Headers := [], OnProcessRequestComplete := none }

/-- The member `IHttpRequest::SetVerb`. -/
def SetVerb {ρ : Type} (R : FHttpRequest ρ) (Verb : FString) : FHttpRequest ρ :=
  { R with Verb := Verb }

/-- The member `IHttpRequest::SetURL`. -/
def SetURL {ρ : Type} (R : FHttpRequest ρ) (URL : FString) : FHttpRequest ρ :=
  { R with URL := URL }

/-- The member `IHttpRequest::SetHeader`: sets the header `Name`, replacing an earlier value. -/
def SetHeader {ρ : Type} (R : FHttpRequest ρ) (Name Value : FString) : FHttpRequest ρ :=
  { R with Headers := R.Headers.filter (fun P => P.1 != Name) ++ [(Name, Value)] }

/-- The call `OnProcessRequestComplete().BindLambda(Lambda)`. -/
def BindLambda {ρ : Type} (R : FHttpRequest ρ)
    (Lambda : Option FHttpResponse → Bool → List (FHandlerCall ρ)) : FHttpRequest ρ :=
  { R with OnProcessRequestComplete := some Lambda }

/-- The `%d` conversion of `FString::Printf`: decimal digits, with a leading
minus sign for a negative value. -/
def FormatDecimal (Value : Int) : FString :=
  if Value < 0 then "-" ++ Nat.repr Value.natAbs else Nat.repr Value.toNat

/-- The enumeration `EMixerLoginState`. Only `Logged_In` is named in this file; the other
constructors stand for every other state. -/
inductive EMixerLoginState where
  | Not_Logged_In
  | Logging_In
  | Logged_In
  | Logging_Out
  deriving DecidableEq, Repr

/-- The part of `FMixerLocalUser` this file reads: `Id`, as the integer handed to `%d`. -/
structure FMixerLocalUser where
  Id : Int
  deriving DecidableEq, Repr

/-- The part of `UMixerInteractivityUserSettings` this file reads. -/
structure UMixerInteractivityUserSettings where
  AccessToken : FString
  deriving DecidableEq, Repr

/-- Functions and values this file uses and that are declared outside it.

* `IsOk` is `EHttpResponseCodes::IsOk`.
* `Deserialize` is `FJsonSerializer::Deserialize` into an array of JSON values:
  its boolean result and the out-parameter array.
* `AsObject` is `FJsonValue::AsObject`.
* `DefaultGame`, `DefaultVersion` are the default-constructed descriptors.
* `GameFromJson Game Object` is `Game.FromJson(Object)`: its boolean result and
  `Game` afterwards. `VersionFromJson` likewise, from a string.
* `VersionId` is the field `Id` of a game version, as the integer handed to `%d`. -/
structure Host (FJsonValue FJsonObject FMixerInteractiveGame FMixerInteractiveGameVersion : Type) where
  IsOk : Int → Bool
  Deserialize : FString → Bool × TArray FJsonValue
  AsObject : FJsonValue → FJsonObject
  DefaultGame : FMixerInteractiveGame
  GameFromJson : FMixerInteractiveGame → FJsonObject → Bool × FMixerInteractiveGame
  DefaultVersion : FMixerInteractiveGameVersion
  VersionFromJson : FMixerInteractiveGameVersion → FString → Bool × FMixerInteractiveGameVersion
  VersionId : FMixerInteractiveGameVersion → Int

/-- The outcome of one of the two request functions: the value returned
(`none` when the `check` assertion fails and the call does not return), the
requests created, and the requests handed to `ProcessRequest`. -/
structure FRequestOutcome (ρ : Type) where
  Returned : Option Bool
  Created : List (FHttpRequest ρ)
  Processed : List (FHttpRequest ρ)

/-- The HTTP layer completing request `R`: it runs the lambda bound to the
request, if any. The value is the list of handler invocations this causes. -/
def CompleteRequest {ρ : Type} (R : FHttpRequest ρ) (HttpResponse : Option FHttpResponse)
    (bSucceeded : Bool) : List (FHandlerCall ρ) :=
  match R.OnProcessRequestComplete with
  | some Lambda => Lambda HttpResponse bSucceeded
  | none => []

/-- Every handler invocation that can follow from an outcome when the HTTP layer
completes the created requests, the i-th one with the i-th given completion. -/
def HandlerCallsAfter {ρ : Type} (O : FRequestOutcome ρ)
    (Completions : List (Option FHttpResponse × Bool)) : List (FHandlerCall ρ) :=
  ((O.Created.zip Completions).map (fun P => CompleteRequest P.1 P.2.1 P.2.2)).flatten

section Requests

variable {FJsonValue FJsonObject FMixerInteractiveGame FMixerInteractiveGameVersion : Type}

/-! ## RequestAvailableInteractiveGames -/

/-- The values of the locals `Success` and `GameCollection` when the completion
lambda of `RequestAvailableInteractiveGames` reaches its last statement.
`Reserve` only affects capacity. -/
def GamesRequestLocals
    (H : Host FJsonValue FJsonObject FMixerInteractiveGame FMixerInteractiveGameVersion)
    (HttpResponse : Option FHttpResponse) (bSucceeded : Bool) :
    Bool × TArray FMixerInteractiveGame :=
  let Success := false
  let GameCollection : TArray FMixerInteractiveGame := []
  match bSucceeded, HttpResponse with
  | true, some Response =>
    if H.IsOk Response.ResponseCode then
      let GameCollectionJson := H.Deserialize Response.Content
      if GameCollectionJson.1 then
        let Success := true
        let GameCollection := GameCollectionJson.2.foldl
          (fun (GameCollection : TArray FMixerInteractiveGame) (GameJson : FJsonValue) =>
            let Game := H.DefaultGame
            let Game := (H.GameFromJson Game (H.AsObject GameJson)).2
            TArray.Add GameCollection Game) GameCollection
        (Success, GameCollection)
      else (Success, GameCollection)
    else (Success, GameCollection)
  | _, _ => (Success, GameCollection)

/-- The completion lambda of `RequestAvailableInteractiveGames`, capturing `OnFinished`. -/
def GamesRequestComplete
    (H : Host FJsonValue FJsonObject FMixerInteractiveGame FMixerInteractiveGameVersion)
    (OnFinished : FDelegate) (HttpResponse : Option FHttpResponse) (bSucceeded : Bool) :
    List (FHandlerCall (TArray FMixerInteractiveGame)) :=
  let Locals := GamesRequestLocals H HttpResponse bSucceeded
  ExecuteIfBound OnFinished Locals.1 Locals.2

/-- The function `FMixerInteractivityEditorModule::RequestAvailableInteractiveGames`.
`LoginState` and `CurrentUser` are what the runtime module returns from
`GetLoginState` and `GetCurrentUser`; `ProcessRequest` is the HTTP layer. -/
def RequestAvailableInteractiveGames
    (H : Host FJsonValue FJsonObject FMixerInteractiveGame FMixerInteractiveGameVersion)
    (ProcessRequest : FHttpRequest (TArray FMixerInteractiveGame) → Bool)
    (LoginState : EMixerLoginState) (CurrentUser : Option FMixerLocalUser)
    (UserSettings : UMixerInteractivityUserSettings) (OnFinished : FDelegate) :
    FRequestOutcome (TArray FMixerInteractiveGame) :=
  if LoginState ≠ EMixerLoginState.Logged_In then
    { Returned := some false, Created := [], Processed := [] }
  else
    match CurrentUser with
    | none => { Returned := none, Created := [], Processed := [] }
    | some MixerUser =>
      let GamesListUrl :=
        "https://mixer.com/api/v1/interactive/games/owned?user=" ++ FormatDecimal MixerUser.Id
      let AuthZHeaderValue := "Bearer " ++ UserSettings.AccessToken
      let GamesRequest : FHttpRequest (TArray FMixerInteractiveGame) := CreateRequest
      let GamesRequest := SetVerb GamesRequest "GET"
      let GamesRequest := SetURL GamesRequest GamesListUrl
      let GamesRequest := SetHeader GamesRequest "Authorization" AuthZHeaderValue
      let GamesRequest := BindLambda GamesRequest (GamesRequestComplete H OnFinished)
      if !ProcessRequest GamesRequest then
        { Returned := some false, Created := [GamesRequest], Processed := [GamesRequest] }
      else
        { Returned := some true, Created := [GamesRequest], Processed := [GamesRequest] }

/-! ## RequestInteractiveControlsForGameVersion -/

/-- The values of the locals `Success` and `VersionWithControls` when the
completion lambda of `RequestInteractiveControlsForGameVersion` reaches its
last statement. -/
def ControlsRequestLocals
    (H : Host FJsonValue FJsonObject FMixerInteractiveGame FMixerInteractiveGameVersion)
    (HttpResponse : Option FHttpResponse) (bSucceeded : Bool) :
    Bool × FMixerInteractiveGameVersion :=
  let Success := false
  let VersionWithControls := H.DefaultVersion
  match bSucceeded, HttpResponse with
  | true, some Response =>
    if H.IsOk Response.ResponseCode then
      H.VersionFromJson VersionWithControls Response.Content
    else (Success, VersionWithControls)
  | _, _ => (Success, VersionWithControls)

/-- The completion lambda of `RequestInteractiveControlsForGameVersion`, capturing `OnFinished`. -/
def ControlsRequestComplete
    (H : Host FJsonValue FJsonObject FMixerInteractiveGame FMixerInteractiveGameVersion)
    (OnFinished : FDelegate) (HttpResponse : Option FHttpResponse) (bSucceeded : Bool) :
    List (FHandlerCall FMixerInteractiveGameVersion) :=
  let Locals := ControlsRequestLocals H HttpResponse bSucceeded
  ExecuteIfBound OnFinished Locals.1 Locals.2

/-- The function `FMixerInteractivityEditorModule::RequestInteractiveControlsForGameVersion`. -/
def RequestInteractiveControlsForGameVersion
    (H : Host FJsonValue FJsonObject FMixerInteractiveGame FMixerInteractiveGameVersion)
    (ProcessRequest : FHttpRequest FMixerInteractiveGameVersion → Bool)
    (Version : FMixerInteractiveGameVersion) (OnFinished : FDelegate) :
    FRequestOutcome FMixerInteractiveGameVersion :=
  let ControlsForVersionUrl :=
    "https://mixer.com/api/v1/interactive/versions/" ++ FormatDecimal (H.VersionId Version)
  let ControlsRequest : FHttpRequest FMixerInteractiveGameVersion := CreateRequest
  let ControlsRequest := SetVerb ControlsRequest "GET"
  let ControlsRequest := SetURL ControlsRequest ControlsForVersionUrl
  let ControlsRequest := BindLambda ControlsRequest (ControlsRequestComplete H OnFinished)
  if !ProcessRequest ControlsRequest then
    { Returned := some false, Created := [ControlsRequest], Processed := [ControlsRequest] }
  else
    { Returned := some true, Created := [ControlsRequest], Processed := [ControlsRequest] }

end Requests

/-! ## A concrete host for evaluating the definitions -/

/-- A game-version descriptor with an id, a name and a flag for loaded controls. -/
structure SampleVersion where
  Id : Int
  Name : FString
  HasControls : Bool
  deriving DecidableEq, Repr

/-- A host over which the definitions evaluate: status 200 is the OK status, a
JSON value is a natural number, an object is that number, a game is described
by a number. The body "[7,0,7]" deserializes to three entries and "[]" to
none; a game entry 0 fails to parse and leaves the default record. The body
"v3" parses as version 3; nothing else parses. -/
def SampleHost : Host Nat Nat Nat SampleVersion :=
  { IsOk := fun Code => Code == 200
    Deserialize := fun Body =>
      if Body = "[7,0,7]" then (true, [7, 0, 7])
      else if Body = "[]" then (true, [])
      else (false, [])
    AsObject := fun Value => Value
    DefaultGame := 0
    GameFromJson := fun Game Object => if Object = 0 then (false, Game) else (true, Object)
    DefaultVersion := { Id := 0, Name := "", HasControls := false }
    VersionFromJson := fun Version Body =>
      if Body = "v3" then (true, { Id := 3, Name := "three", HasControls := true })
      else (false, Version)
    VersionId := fun Version => Version.Id }

/-- A settings object with two buttons, one stick, no scene and two groups,
one of which is itself named "default". -/
def SampleSettings : UMixerInteractivitySettings :=
  { CachedButtons := ["jump", "fire"]
    CachedSticks := ["move"]
    CachedScenes := []
    DesignTimeGroups :=
      [{ Name := "default", InitialScene := "lobby" }, { Name := "red", InitialScene := "arena" }] }

/-- A module whose lists hold stale names, with two bound listeners. -/
def SampleModule : FMixerInteractivityEditorModule :=
  { DesignTimeButtons := ["old"]
    DesignTimeSticks := ["old"]
    DesignTimeScenes := ["old"]
    DesignTimeGroups := ["old"]
    DesignTimeObjectsChanged := [11, 12]
    BroadcastLog := [] }

/-- A settings object whose four collections are all empty. -/
def EmptySettings : UMixerInteractivitySettings :=
  { CachedButtons := [], CachedSticks := [], CachedScenes := [], DesignTimeGroups := [] }


/-! ## Properties of RefreshDesignTimeObjects -/

/-- The buttons loop appends the names in order and touches nothing else. -/
theorem foldl_add_buttons (Names : List FName) (M : FMixerInteractivityEditorModule) :
    Names.foldl
      (fun (M : FMixerInteractivityEditorModule) (Name : FName) =>
        { M with DesignTimeButtons := TArray.Add M.DesignTimeButtons (MakeShareable Name) }) M
      = { M with DesignTimeButtons := M.DesignTimeButtons ++ Names } := by
  induction Names generalizing M with
  | nil => simp
  | cons Name Rest ih =>
    rw [List.foldl_cons, ih]
    simp [TArray.Add, MakeShareable]

/-- The sticks loop appends the names in order and touches nothing else. -/
theorem foldl_add_sticks (Names : List FName) (M : FMixerInteractivityEditorModule) :
    Names.foldl
      (fun (M : FMixerInteractivityEditorModule) (Name : FName) =>
        { M with DesignTimeSticks := TArray.Add M.DesignTimeSticks (MakeShareable Name) }) M
      = { M with DesignTimeSticks := M.DesignTimeSticks ++ Names } := by
  induction Names generalizing M with
  | nil => simp
  | cons Name Rest ih =>
    rw [List.foldl_cons, ih]
    simp [TArray.Add, MakeShareable]

/-- The scenes loop appends the names in order and touches nothing else. -/
theorem foldl_add_scenes (Names : List FName) (M : FMixerInteractivityEditorModule) :
    Names.foldl
      (fun (M : FMixerInteractivityEditorModule) (Name : FName) =>
        { M with DesignTimeScenes := TArray.Add M.DesignTimeScenes (MakeShareable Name) }) M
      = { M with DesignTimeScenes := M.DesignTimeScenes ++ Names } := by
  induction Names generalizing M with
  | nil => simp
  | cons Name Rest ih =>
    rw [List.foldl_cons, ih]
    simp [TArray.Add, MakeShareable]

/-- The groups loop appends the group names in order and touches nothing else. -/
theorem foldl_add_groups (Groups : List FMixerPredefinedGroup)
    (M : FMixerInteractivityEditorModule) :
    Groups.foldl
      (fun (M : FMixerInteractivityEditorModule) (Group : FMixerPredefinedGroup) =>
        { M with DesignTimeGroups := TArray.Add M.DesignTimeGroups (MakeShareable Group.Name) }) M
      = { M with DesignTimeGroups := M.DesignTimeGroups ++ Groups.map (fun G => G.Name) } := by
  induction Groups generalizing M with
  | nil => simp
  | cons Group Rest ih =>
    rw [List.foldl_cons, ih]
    simp [TArray.Add, MakeShareable]

/-- Closed form of a refresh: the four lists come from the settings alone, the
bound listeners are kept, and one broadcast is logged in which every listener
sees the new lists. -/
theorem RefreshDesignTimeObjects_eq (Settings : UMixerInteractivitySettings)
    (M : FMixerInteractivityEditorModule) :
    RefreshDesignTimeObjects Settings M =
      { DesignTimeButtons := Settings.CachedButtons
        DesignTimeSticks := Settings.CachedSticks
        DesignTimeScenes := Settings.CachedScenes
        DesignTimeGroups := "default" :: Settings.DesignTimeGroups.map (fun G => G.Name)
        DesignTimeObjectsChanged := M.DesignTimeObjectsChanged
        BroadcastLog := M.BroadcastLog ++
          [M.DesignTimeObjectsChanged.map
            (fun L => { Listener := L, Seen := RefreshedView Settings })] } := by
  simp only [RefreshDesignTimeObjects, foldl_add_buttons, foldl_add_sticks, foldl_add_scenes,
    foldl_add_groups]
  simp [Broadcast, TArray.Empty, TArray.Add, MakeShareable,
    FMixerInteractivityEditorModule.View, RefreshedView]

/-- C1: after `RefreshDesignTimeObjects` the buttons, sticks and scenes lists are
exactly the settings' `CachedButtons`, `CachedSticks` and `CachedScenes` (hence
same length, names and order), whatever the module held before: two refreshes
from the same settings on different prior modules give the same three lists. -/
theorem C1_refresh_copies_cached_lists (Settings : UMixerInteractivitySettings)
    (M Other : FMixerInteractivityEditorModule) :
    (RefreshDesignTimeObjects Settings M).DesignTimeButtons = Settings.CachedButtons
    ∧ (RefreshDesignTimeObjects Settings M).DesignTimeSticks = Settings.CachedSticks
    ∧ (RefreshDesignTimeObjects Settings M).DesignTimeScenes = Settings.CachedScenes
    ∧ (RefreshDesignTimeObjects Settings M).DesignTimeButtons
        = (RefreshDesignTimeObjects Settings Other).DesignTimeButtons
    ∧ (RefreshDesignTimeObjects Settings M).DesignTimeSticks
        = (RefreshDesignTimeObjects Settings Other).DesignTimeSticks
    ∧ (RefreshDesignTimeObjects Settings M).DesignTimeScenes
        = (RefreshDesignTimeObjects Settings Other).DesignTimeScenes := by
  simp [RefreshDesignTimeObjects_eq]

/-- C2, as stated, fails: refreshing from a settings object with the two groups
"default" and "red" leaves the three names "default", "default", "red" in the
groups list, which is not the list of the settings' group names, and its
length is not the number of groups. -/
theorem C2_groups_list_has_extra_entry :
    (RefreshDesignTimeObjects SampleSettings SampleModule).DesignTimeGroups
        ≠ SampleSettings.DesignTimeGroups.map (fun G => G.Name)
    ∧ (RefreshDesignTimeObjects SampleSettings SampleModule).DesignTimeGroups.length
        ≠ SampleSettings.DesignTimeGroups.length
    ∧ (RefreshDesignTimeObjects SampleSettings SampleModule).DesignTimeGroups
        = ["default", "default", "red"]
    ∧ SampleSettings.DesignTimeGroups.map (fun G => G.Name) = ["default", "red"] := by
  simp [RefreshDesignTimeObjects_eq, SampleSettings]

/-- C2, amended: after `RefreshDesignTimeObjects` the groups list is the name
"default" followed by exactly the names of the settings' `DesignTimeGroups`
entries, in the same order, and nothing else, whatever the module held before. -/
theorem C2_groups_default_then_settings_names (Settings : UMixerInteractivitySettings)
    (M : FMixerInteractivityEditorModule) :
    (RefreshDesignTimeObjects Settings M).DesignTimeGroups
      = "default" :: Settings.DesignTimeGroups.map (fun G => G.Name) := by
  simp [RefreshDesignTimeObjects_eq]

/-- C7: a call of `RefreshDesignTimeObjects` adds exactly one broadcast to the log;
in that broadcast every bound listener is invoked once, in order, and what
each of them sees is the module as the call leaves it, whose buttons, sticks,
scenes and groups lists are the fully rebuilt ones. This holds for every
settings object and every prior module. -/
theorem C7_single_broadcast_after_rebuild (Settings : UMixerInteractivitySettings)
    (M : FMixerInteractivityEditorModule) :
    (RefreshDesignTimeObjects Settings M).BroadcastLog
        = M.BroadcastLog ++
          [M.DesignTimeObjectsChanged.map
            (fun L => { Listener := L, Seen := (RefreshDesignTimeObjects Settings M).View })]
    ∧ (RefreshDesignTimeObjects Settings M).BroadcastLog.length = M.BroadcastLog.length + 1
    ∧ (RefreshDesignTimeObjects Settings M).View.Buttons = Settings.CachedButtons
    ∧ (RefreshDesignTimeObjects Settings M).View.Sticks = Settings.CachedSticks
    ∧ (RefreshDesignTimeObjects Settings M).View.Scenes = Settings.CachedScenes
    ∧ (RefreshDesignTimeObjects Settings M).View.Groups
        = "default" :: Settings.DesignTimeGroups.map (fun G => G.Name) := by
  simp [RefreshDesignTimeObjects_eq, FMixerInteractivityEditorModule.View, RefreshedView]

/-- C10: for a settings object with n design-time groups, after
`RefreshDesignTimeObjects` the groups list has length n + 1, its first element
is "default", and its element at index i + 1 is the name of the settings' i-th
group for every i < n; so the list is never empty, and when a settings group
is itself named "default" the list holds "default" at least twice. -/
theorem C10_groups_list_layout (Settings : UMixerInteractivitySettings)
    (M : FMixerInteractivityEditorModule) :
    (RefreshDesignTimeObjects Settings M).DesignTimeGroups.length
        = Settings.DesignTimeGroups.length + 1
    ∧ (RefreshDesignTimeObjects Settings M).DesignTimeGroups[0]? = some "default"
    ∧ (∀ i (h : i < Settings.DesignTimeGroups.length),
        (RefreshDesignTimeObjects Settings M).DesignTimeGroups[i + 1]?
          = some (Settings.DesignTimeGroups[i]).Name)
    ∧ (RefreshDesignTimeObjects Settings M).DesignTimeGroups ≠ []
    ∧ ((∃ G ∈ Settings.DesignTimeGroups, G.Name = "default") →
        2 ≤ (RefreshDesignTimeObjects Settings M).DesignTimeGroups.count "default") := by
  rw [RefreshDesignTimeObjects_eq]
  refine ⟨by simp, by simp, ?_, by simp, ?_⟩
  · intro i h
    simp [h]
  · rintro ⟨G, hG, hName⟩
    have hMem : "default" ∈ Settings.DesignTimeGroups.map (fun G => G.Name) :=
      List.mem_map.mpr ⟨G, hG, hName⟩
    have hPos : 1 ≤ (Settings.DesignTimeGroups.map (fun G => G.Name)).count "default" :=
      List.count_pos_iff.mpr hMem
    simp only [List.count_cons_self]
    omega

/-- C10 at a concrete input: with the two groups "default" and "red" the list is
"default", "default", "red". -/
theorem C10_groups_list_layout_witness :
    (0 < SampleSettings.DesignTimeGroups.length)
    ∧ (RefreshDesignTimeObjects SampleSettings SampleModule).DesignTimeGroups[0 + 1]?
        = some (SampleSettings.DesignTimeGroups[0]).Name
    ∧ (∃ G ∈ SampleSettings.DesignTimeGroups, G.Name = "default")
    ∧ 2 ≤ (RefreshDesignTimeObjects SampleSettings SampleModule).DesignTimeGroups.count "default"
    ∧ (RefreshDesignTimeObjects SampleSettings SampleModule).DesignTimeGroups
        = ["default", "default", "red"] :=
  ⟨by decide,
   (C10_groups_list_layout SampleSettings SampleModule).2.2.1 0 (by decide),
   ⟨_, List.mem_cons_self _ _, rfl⟩,
   (C10_groups_list_layout SampleSettings SampleModule).2.2.2.2
     ⟨_, List.mem_cons_self _ _, rfl⟩,
   by decide⟩

/-! ## Properties of the completion callbacks -/

section Callbacks

variable {FJsonValue FJsonObject FMixerInteractiveGame FMixerInteractiveGameVersion : Type}

/-- The games loop adds one parsed descriptor per entry, in order. -/
theorem foldl_add_games
    (H : Host FJsonValue FJsonObject FMixerInteractiveGame FMixerInteractiveGameVersion)
    (Entries : List FJsonValue) (Init : TArray FMixerInteractiveGame) :
    Entries.foldl
      (fun (GameCollection : TArray FMixerInteractiveGame) (GameJson : FJsonValue) =>
        TArray.Add GameCollection (H.GameFromJson H.DefaultGame (H.AsObject GameJson)).2) Init
      = Init ++ Entries.map (fun J => (H.GameFromJson H.DefaultGame (H.AsObject J)).2) := by
  induction Entries generalizing Init with
  | nil => simp
  | cons Entry Rest ih =>
    rw [List.foldl_cons, ih]
    simp [TArray.Add]

/-- Closed form of the locals of the games callback. -/
theorem GamesRequestLocals_eq
    (H : Host FJsonValue FJsonObject FMixerInteractiveGame FMixerInteractiveGameVersion)
    (HttpResponse : Option FHttpResponse) (bSucceeded : Bool) :
    GamesRequestLocals H HttpResponse bSucceeded =
      match bSucceeded, HttpResponse with
      | true, some Response =>
        if H.IsOk Response.ResponseCode = true ∧ (H.Deserialize Response.Content).1 = true then
          (true, (H.Deserialize Response.Content).2.map
            (fun J => (H.GameFromJson H.DefaultGame (H.AsObject J)).2))
        else (false, [])
      | _, _ => (false, []) := by
  unfold GamesRequestLocals
  cases bSucceeded <;> cases HttpResponse <;> simp [foldl_add_games]
  split <;> split <;> simp_all

/-- C3: in the completion callback of `RequestAvailableInteractiveGames`, a bound
handler is given the locals `Success` and `GameCollection`; `Success` is true if
and only if bSucceeded is true, the response is valid, its status code is OK
and its body deserializes as a JSON array; and whenever one of these four
checks fails the handler gets success=false with an empty game collection. -/
theorem C3_games_callback_failure_and_success
    (H : Host FJsonValue FJsonObject FMixerInteractiveGame FMixerInteractiveGameVersion)
    (Handler : Nat) (HttpResponse : Option FHttpResponse) (bSucceeded : Bool) :
    GamesRequestComplete H (some Handler) HttpResponse bSucceeded
        = [{ Handler := Handler
             Success := (GamesRequestLocals H HttpResponse bSucceeded).1
             Result := (GamesRequestLocals H HttpResponse bSucceeded).2 }]
    ∧ ((GamesRequestLocals H HttpResponse bSucceeded).1 = true ↔
        (bSucceeded = true ∧ ∃ Response, HttpResponse = some Response
          ∧ H.IsOk Response.ResponseCode = true
          ∧ (H.Deserialize Response.Content).1 = true))
    ∧ ((bSucceeded = false ∨ HttpResponse = none
          ∨ ∃ Response, HttpResponse = some Response
              ∧ (H.IsOk Response.ResponseCode = false
                  ∨ (H.Deserialize Response.Content).1 = false)) →
        GamesRequestComplete H (some Handler) HttpResponse bSucceeded
          = [{ Handler := Handler, Success := false, Result := [] }]) := by
  refine ⟨rfl, ?_, ?_⟩
  · rw [GamesRequestLocals_eq]
    cases bSucceeded <;> cases HttpResponse <;> simp
    split <;> simp_all
  · intro hFail
    simp only [GamesRequestComplete, ExecuteIfBound, GamesRequestLocals_eq]
    cases bSucceeded <;> cases HttpResponse <;> simp at hFail ⊢
    split <;> simp_all

/-- C3 at a concrete input: status 404 with a well-formed body is a failure, and
the handler 5 gets success=false and no game. -/
theorem C3_games_callback_failure_and_success_witness :
    (true = false ∨ some ({ ResponseCode := 404, Content := "[7,0,7]" } : FHttpResponse) = none
      ∨ ∃ Response, some ({ ResponseCode := 404, Content := "[7,0,7]" } : FHttpResponse)
            = some Response
          ∧ (SampleHost.IsOk Response.ResponseCode = false
              ∨ (SampleHost.Deserialize Response.Content).1 = false))
    ∧ GamesRequestComplete SampleHost (some 5)
          (some { ResponseCode := 404, Content := "[7,0,7]" }) true
        = [{ Handler := 5, Success := false, Result := [] }] :=
  ⟨Or.inr (Or.inr ⟨_, rfl, Or.inl (by decide)⟩),
   (C3_games_callback_failure_and_success SampleHost 5
      (some { ResponseCode := 404, Content := "[7,0,7]" }) true).2.2
      (Or.inr (Or.inr ⟨_, rfl, Or.inl (by decide)⟩))⟩

/-- C4: in the completion callback of `RequestAvailableInteractiveGames`, when the
request succeeded with a valid response of OK status whose body deserializes
to an array of n entries, a bound handler gets success=true and a collection
of exactly n descriptors, the i-th being the default-constructed descriptor
after `FromJson` on the object of the i-th entry, whatever that `FromJson`
returned: one per entry, in order. -/
theorem C4_games_callback_one_descriptor_per_entry
    (H : Host FJsonValue FJsonObject FMixerInteractiveGame FMixerInteractiveGameVersion)
    (Handler : Nat) (Response : FHttpResponse)
    (hOk : H.IsOk Response.ResponseCode = true)
    (hArray : (H.Deserialize Response.Content).1 = true) :
    GamesRequestComplete H (some Handler) (some Response) true
        = [{ Handler := Handler
             Success := true
             Result := (H.Deserialize Response.Content).2.map
               (fun J => (H.GameFromJson H.DefaultGame (H.AsObject J)).2) }]
    ∧ (GamesRequestLocals H (some Response) true).2.length
        = (H.Deserialize Response.Content).2.length
    ∧ ∀ i (h : i < (H.Deserialize Response.Content).2.length),
        (GamesRequestLocals H (some Response) true).2[i]?
          = some (H.GameFromJson H.DefaultGame
              (H.AsObject ((H.Deserialize Response.Content).2[i]))).2 := by
  have hLocals : GamesRequestLocals H (some Response) true
      = (true, (H.Deserialize Response.Content).2.map
          (fun J => (H.GameFromJson H.DefaultGame (H.AsObject J)).2)) := by
    rw [GamesRequestLocals_eq]
    simp [hOk, hArray]
  refine ⟨?_, ?_, ?_⟩
  · simp [GamesRequestComplete, ExecuteIfBound, hLocals]
  · simp [hLocals]
  · intro i h
    simp [hLocals, h]

/-- C4 at a concrete input: the body "[7,0,7]" gives three descriptors, the
middle one being the default record left by a failed parse. -/
theorem C4_games_callback_one_descriptor_per_entry_witness :
    SampleHost.IsOk 200 = true
    ∧ (SampleHost.Deserialize "[7,0,7]").1 = true
    ∧ GamesRequestComplete SampleHost (some 5)
          (some { ResponseCode := 200, Content := "[7,0,7]" }) true
        = [{ Handler := 5, Success := true, Result := [7, 0, 7] }] :=
  ⟨by decide, by decide,
   (C4_games_callback_one_descriptor_per_entry SampleHost 5
      { ResponseCode := 200, Content := "[7,0,7]" } (by decide) (by decide)).1⟩

/-- C8: each of the two completion callbacks invokes a bound completion handler
exactly once, whatever the transport flag, the response, its status and its
body are; the one invocation goes to the captured handler. With no handler
bound, `ExecuteIfBound` has nothing to invoke. -/
theorem C8_handler_invoked_exactly_once
    (H : Host FJsonValue FJsonObject FMixerInteractiveGame FMixerInteractiveGameVersion)
    (Handler : Nat) (HttpResponse : Option FHttpResponse) (bSucceeded : Bool) :
    (GamesRequestComplete H (some Handler) HttpResponse bSucceeded).length = 1
    ∧ (ControlsRequestComplete H (some Handler) HttpResponse bSucceeded).length = 1
    ∧ (GamesRequestComplete H (some Handler) HttpResponse bSucceeded).map (fun C => C.Handler)
        = [Handler]
    ∧ (ControlsRequestComplete H (some Handler) HttpResponse bSucceeded).map (fun C => C.Handler)
        = [Handler]
    ∧ GamesRequestComplete H none HttpResponse bSucceeded = []
    ∧ ControlsRequestComplete H none HttpResponse bSucceeded = [] := by
  simp [GamesRequestComplete, ControlsRequestComplete, ExecuteIfBound]

/-! ## Properties of the request functions -/

/-- C6: when logged in with current user `User`, `RequestAvailableInteractiveGames`
creates one request and hands it to `ProcessRequest`: verb GET, URL
"https://mixer.com/api/v1/interactive/games/owned?user=" followed by the
decimal user id, and exactly one header, Authorization, whose value is
"Bearer " followed by the stored access token.
`RequestInteractiveControlsForGameVersion` creates one request and hands it to
`ProcessRequest`: verb GET, URL "https://mixer.com/api/v1/interactive/versions/"
followed by the decimal version id, and no header at all. -/
theorem C6_request_construction
    (H : Host FJsonValue FJsonObject FMixerInteractiveGame FMixerInteractiveGameVersion)
    (ProcessGames : FHttpRequest (TArray FMixerInteractiveGame) → Bool)
    (ProcessControls : FHttpRequest FMixerInteractiveGameVersion → Bool)
    (User : FMixerLocalUser) (UserSettings : UMixerInteractivityUserSettings)
    (Version : FMixerInteractiveGameVersion) (OnGames OnControls : FDelegate) :
    (∃ R,
      (RequestAvailableInteractiveGames H ProcessGames EMixerLoginState.Logged_In (some User)
          UserSettings OnGames).Created = [R]
      ∧ (RequestAvailableInteractiveGames H ProcessGames EMixerLoginState.Logged_In (some User)
          UserSettings OnGames).Processed = [R]
      ∧ R.Verb = "GET"
      ∧ R.URL = "https://mixer.com/api/v1/interactive/games/owned?user=" ++ FormatDecimal User.Id
      ∧ R.Headers = [("Authorization", "Bearer " ++ UserSettings.AccessToken)])
    ∧ (∃ R,
      (RequestInteractiveControlsForGameVersion H ProcessControls Version OnControls).Created = [R]
      ∧ (RequestInteractiveControlsForGameVersion H ProcessControls Version OnControls).Processed
          = [R]
      ∧ R.Verb = "GET"
      ∧ R.URL = "https://mixer.com/api/v1/interactive/versions/"
          ++ FormatDecimal (H.VersionId Version)
      ∧ R.Headers = []
      ∧ ∀ Value, ("Authorization", Value) ∉ R.Headers) := by
  constructor
  · simp only [RequestAvailableInteractiveGames, ne_eq, not_true_eq_false, if_false]
    split <;> simp [BindLambda, SetHeader, SetURL, SetVerb, CreateRequest]
  · simp only [RequestInteractiveControlsForGameVersion]
    split <;> simp [BindLambda, SetURL, SetVerb, CreateRequest]

/-- C9: `RequestAvailableInteractiveGames` returns true if and only if the login
state is `Logged_In` and `ProcessRequest` is called on a request and returns
true. When logged in (with the current user the `check` asserts) it creates
one request, hands that request to `ProcessRequest` and returns exactly what
`ProcessRequest` returns for it. In any other login state it returns false,
creates no request, hands none to `ProcessRequest`, and no completion of the
HTTP layer can reach the handler. `RequestInteractiveControlsForGameVersion`
has no login state among its inputs: it creates one request, hands it to
`ProcessRequest` and returns exactly what `ProcessRequest` returns for it. -/
theorem C9_request_return_values
    (H : Host FJsonValue FJsonObject FMixerInteractiveGame FMixerInteractiveGameVersion)
    (ProcessGames : FHttpRequest (TArray FMixerInteractiveGame) → Bool)
    (ProcessControls : FHttpRequest FMixerInteractiveGameVersion → Bool)
    (LoginState : EMixerLoginState) (CurrentUser : Option FMixerLocalUser)
    (User : FMixerLocalUser) (UserSettings : UMixerInteractivityUserSettings)
    (Version : FMixerInteractiveGameVersion) (OnGames OnControls : FDelegate) :
    ((RequestAvailableInteractiveGames H ProcessGames LoginState CurrentUser
          UserSettings OnGames).Returned = some true ↔
        (LoginState = EMixerLoginState.Logged_In
          ∧ ∃ R ∈ (RequestAvailableInteractiveGames H ProcessGames LoginState CurrentUser
              UserSettings OnGames).Processed, ProcessGames R = true))
    ∧ (∃ R,
        (RequestAvailableInteractiveGames H ProcessGames EMixerLoginState.Logged_In (some User)
            UserSettings OnGames).Created = [R]
        ∧ (RequestAvailableInteractiveGames H ProcessGames EMixerLoginState.Logged_In (some User)
            UserSettings OnGames).Processed = [R]
        ∧ (RequestAvailableInteractiveGames H ProcessGames EMixerLoginState.Logged_In (some User)
            UserSettings OnGames).Returned = some (ProcessGames R)
        ∧ ∀ HttpResponse bSucceeded,
            CompleteRequest R HttpResponse bSucceeded
              = GamesRequestComplete H OnGames HttpResponse bSucceeded)
    ∧ ((RequestAvailableInteractiveGames H ProcessGames EMixerLoginState.Logged_In (some User)
            UserSettings OnGames).Returned = some true ↔
        ∃ R ∈ (RequestAvailableInteractiveGames H ProcessGames EMixerLoginState.Logged_In
            (some User) UserSettings OnGames).Created, ProcessGames R = true)
    ∧ (LoginState ≠ EMixerLoginState.Logged_In →
        (RequestAvailableInteractiveGames H ProcessGames LoginState CurrentUser
            UserSettings OnGames).Returned = some false
        ∧ (RequestAvailableInteractiveGames H ProcessGames LoginState CurrentUser
            UserSettings OnGames).Created = []
        ∧ (RequestAvailableInteractiveGames H ProcessGames LoginState CurrentUser
            UserSettings OnGames).Processed = []
        ∧ ∀ Completions,
            HandlerCallsAfter (RequestAvailableInteractiveGames H ProcessGames LoginState
              CurrentUser UserSettings OnGames) Completions = [])
    ∧ (∃ R,
        (RequestInteractiveControlsForGameVersion H ProcessControls Version OnControls).Created
          = [R]
        ∧ (RequestInteractiveControlsForGameVersion H ProcessControls Version OnControls).Processed
          = [R]
        ∧ (RequestInteractiveControlsForGameVersion H ProcessControls Version OnControls).Returned
          = some (ProcessControls R)
        ∧ ∀ HttpResponse bSucceeded,
            CompleteRequest R HttpResponse bSucceeded
              = ControlsRequestComplete H OnControls HttpResponse bSucceeded) := by
  refine ⟨?_, ?_, ?_, ?_, ?_⟩
  · by_cases hLogin : LoginState = EMixerLoginState.Logged_In
    · subst hLogin
      cases CurrentUser with
      | none => simp [RequestAvailableInteractiveGames]
      | some User =>
        simp only [RequestAvailableInteractiveGames, ne_eq, not_true_eq_false, if_false]
        split <;> simp_all
    · simp [RequestAvailableInteractiveGames, hLogin]
  · simp only [RequestAvailableInteractiveGames, ne_eq, not_true_eq_false, if_false]
    split <;> simp_all [CompleteRequest, BindLambda]
  · simp only [RequestAvailableInteractiveGames, ne_eq, not_true_eq_false, if_false]
    split <;> simp_all
  · intro hLogin
    simp [RequestAvailableInteractiveGames, hLogin, HandlerCallsAfter]
  · simp only [RequestInteractiveControlsForGameVersion]
    split <;> simp_all [CompleteRequest, BindLambda]

/-- C9 at concrete inputs: while still logging in the call returns false and
nothing is created, processed or reported; when logged in as user 42 the call
returns true with a `ProcessRequest` that accepts and false with one that
refuses. -/
theorem C9_request_return_values_witness :
    EMixerLoginState.Logging_In ≠ EMixerLoginState.Logged_In
    ∧ (RequestAvailableInteractiveGames SampleHost (fun _ => true) EMixerLoginState.Logging_In
          (some { Id := 42 }) { AccessToken := "abc" } (some 5)).Returned = some false
    ∧ HandlerCallsAfter
        (RequestAvailableInteractiveGames SampleHost (fun _ => true) EMixerLoginState.Logging_In
          (some { Id := 42 }) { AccessToken := "abc" } (some 5))
        [(some { ResponseCode := 200, Content := "[]" }, true)] = []
    ∧ (RequestAvailableInteractiveGames SampleHost (fun _ => true) EMixerLoginState.Logged_In
          (some { Id := 42 }) { AccessToken := "abc" } (some 5)).Returned = some true
    ∧ (RequestAvailableInteractiveGames SampleHost (fun _ => false) EMixerLoginState.Logged_In
          (some { Id := 42 }) { AccessToken := "abc" } (some 5)).Returned = some false :=
  ⟨by decide,
   ((C9_request_return_values SampleHost (fun _ => true) (fun _ => true)
      EMixerLoginState.Logging_In (some { Id := 42 }) { Id := 42 } { AccessToken := "abc" }
      SampleHost.DefaultVersion (some 5) none).2.2.2.1 (by decide)).1,
   ((C9_request_return_values SampleHost (fun _ => true) (fun _ => true)
      EMixerLoginState.Logging_In (some { Id := 42 }) { Id := 42 } { AccessToken := "abc" }
      SampleHost.DefaultVersion (some 5) none).2.2.2.1 (by decide)).2.2.2 _,
   (C9_request_return_values SampleHost (fun _ => true) (fun _ => true)
      EMixerLoginState.Logged_In (some { Id := 42 }) { Id := 42 } { AccessToken := "abc" }
      SampleHost.DefaultVersion (some 5) none).2.1.elim (fun _ hR => hR.2.2.1),
   (C9_request_return_values SampleHost (fun _ => false) (fun _ => true)
      EMixerLoginState.Logged_In (some { Id := 42 }) { Id := 42 } { AccessToken := "abc" }
      SampleHost.DefaultVersion (some 5) none).2.1.elim (fun _ hR => hR.2.2.1)⟩

end Callbacks

end MixerInteractivityEditor
